import Mathlib

/-!
Verification development for the converge matching engine.

This file shallowly embeds the two-phase matching/scoring engine of the
repository: the signal scorers, semantic gate, composite scorer and ranker of
`external/match_users_to_projects.py`, together with the two orchestration
surfaces that the engine exposes, the service entry point
`pipelines/matching_service.match_users_for_project` and the batch/CLI entry
point (`match_users_to_project` plus the `__main__` block of
`external/match_users_to_projects.py`).

Modelling conventions:
* Python floats are idealised as real numbers (`ℝ`); all arithmetic is exact.
* Python exceptions are modelled with `Except String`: a raised exception is
  an `Except.error`, and a caller that does not catch it propagates it.
* Python dicts with a fixed key schema (`profile`, `skills`, ...) are embedded
  as structures of `Option`-valued fields; `dict.get(k, d)` becomes
  `Option.getD`.  Dicts used as finite maps keyed by strings are embedded as
  association lists.
* `str.lower()` is embedded as `pyLower` (character-wise `Char.toLower`,
  which agrees with Python on the ASCII strings the engine compares).
* `int(s)` is embedded as `String.toInt?` (`None` on parse failure standing
  for the caught `ValueError`).
* `round(x, 4)` is embedded as `round4` below.  Python rounds exact halfway
  cases to even while `round` rounds them up; no statement in this file
  evaluates rounding at a halfway point, so the divergence is immaterial.
* `sklearn.metrics.pairwise.cosine_similarity` l2-normalises each row,
  substituting norm 1 for a zero norm (so a zero vector stays zero and never
  divides by zero), raises on a row-dimension mismatch and raises when the
  inputs have zero features; `compute_semantic_similarity` mirrors this.
-/

/-- Config constant `SEMANTIC_THRESHOLD = -0.5` of
`external/match_users_to_projects.py`. -/
noncomputable def SEMANTIC_THRESHOLD : ℝ := -0.5

/-- The six named weights of the `WEIGHTS` dict. -/
structure Weights where
  semantic : ℝ
  skill : ℝ
  experience : ℝ
  year : ℝ
  reputation : ℝ
  availability : ℝ

/-- The `WEIGHTS` configuration dict. -/
noncomputable def WEIGHTS : Weights :=
  { semantic := 0.20, skill := 0.30, experience := 0.20
    year := 0.12, reputation := 0.10, availability := 0.08 }

/-- The `EXPERIENCE_LEVELS` dict, as a lookup function. -/
def EXPERIENCE_LEVELS (s : String) : Option ℕ :=
  if s = "beginner" then some 1
  else if s = "intermediate" then some 2
  else if s = "advanced" then some 3
  else none

/-- The `PROJECT_TYPE_EXPERIENCE` dict, as a lookup function. -/
def PROJECT_TYPE_EXPERIENCE (s : String) : Option String :=
  if s = "hackathon" then some "intermediate"
  else if s = "research" then some "advanced"
  else if s = "startup" then some "intermediate"
  else if s = "open_source" then some "beginner"
  else none

/-- Python `str.lower()`, character-wise (the engine only lowercases ASCII
skill and availability strings, where this agrees with Python). -/
def pyLower (s : String) : String := ⟨s.data.map Char.toLower⟩

/-- Dot product of two vectors represented as lists (trailing entries of the
longer list are ignored; the engine only dots equal-length vectors). -/
noncomputable def dotList : List ℝ → List ℝ → ℝ
  | x :: xs, y :: ys => x * y + dotList xs ys
  | _, _ => 0

/-- Euclidean norm of a vector. -/
noncomputable def l2norm (v : List ℝ) : ℝ := Real.sqrt (dotList v v)

/-- The norm as used by sklearn row normalisation: a zero norm is replaced by
1 so that a zero row is left unchanged instead of dividing by zero. -/
noncomputable def safeNorm (v : List ℝ) : ℝ := if l2norm v = 0 then 1 else l2norm v

/-- Cosine similarity as computed by sklearn `cosine_similarity` on two
single-row matrices of equal, positive dimension. -/
noncomputable def cosineSimVal (a b : List ℝ) : ℝ :=
  dotList a b / (safeNorm a * safeNorm b)

/-- `compute_semantic_similarity` of `external/match_users_to_projects.py`.
The two error branches are the `ValueError`s sklearn raises for mismatched
dimensionality and for empty (zero-feature) inputs. -/
noncomputable def compute_semantic_similarity (proj user : List ℝ) :
    Except String ℝ :=
  if proj.length ≠ user.length then .error "Incompatible dimension for X and Y matrices"
  else if proj.length = 0 then .error "a minimum of 1 is required"
  else .ok (cosineSimVal proj user)

/-- `semantic_gate`: computes the similarity and compares it with the
threshold, returning the pair `(passes, similarity)`; an exception from the
similarity computation propagates. -/
noncomputable def semantic_gate (proj user : List ℝ) (threshold : ℝ) :
    Except String (Bool × ℝ) :=
  match compute_semantic_similarity proj user with
  | .error e => .error e
  | .ok s => .ok (decide (s ≥ threshold), s)

/-- `score_skill_match`: share of the (deduplicated, lowercased) required
skills found among the flattened, lowercased user skills.  In the typed
embedding every category value is a list, so the `isinstance` guard of the
source is vacuous. -/
noncomputable def score_skill_match (required_skills : List String)
    (user_skills : List (String × List String)) : ℝ :=
  if required_skills = [] then 1.0
  else
    let all_user_skills := (user_skills.map (fun kv => kv.2.map pyLower)).flatten
    let required_normalized := (required_skills.map pyLower).dedup
    let intersection :=
      (required_normalized.filter (fun s => all_user_skills.contains s)).length
    min 1.0 ((intersection : ℝ) / (required_normalized.length : ℝ))

/-- `score_experience_alignment`: ordinal comparison of the user's overall
level against the level preferred for the project type; the
`user_domain_experience` argument is accepted and ignored, as in the source. -/
noncomputable def score_experience_alignment (project_type : String)
    (user_overall_experience : String)
    (user_domain_experience : List (String × String)) : ℝ :=
  let preferred_level := (PROJECT_TYPE_EXPERIENCE project_type).getD "intermediate"
  let preferred_value := (EXPERIENCE_LEVELS preferred_level).getD 2
  let user_value := (EXPERIENCE_LEVELS user_overall_experience).getD 1
  if user_value = preferred_value then 1.0
  else if user_value < preferred_value then 0.3
  else 0.8

/-- `score_year_compatibility`: 0.25 decay per year of distance, floored at 0;
no preferred year, or an unparsable user year, scores 1.0. -/
noncomputable def score_year_compatibility (user_year : String)
    (preferred_year : Option ℤ) : ℝ :=
  match preferred_year with
  | none => 1.0
  | some p =>
    match user_year.toInt? with
    | none => 1.0
    | some u => min 1.0 (max 0.0 (1.0 - 0.25 * |(u : ℝ) - (p : ℝ)|))

/-- `score_reputation`: perfect score for zero completed projects, otherwise
confidence-scaled normalised rating, where a non-positive rating makes the
normalised rating default to 1.0. -/
noncomputable def score_reputation (average_rating : ℝ)
    (completed_projects : ℕ) : ℝ :=
  if completed_projects = 0 then 1.0
  else
    let confidence_factor := min 1.0 ((completed_projects : ℝ) / 5.0)
    let normalized_rating := if average_rating > 0 then average_rating / 5.0 else 1.0
    min 1.0 (normalized_rating * confidence_factor)

/-- `score_availability`: categorical map on the lowercased value with
default 0.5. -/
noncomputable def score_availability (availability : String) : ℝ :=
  let a := pyLower availability
  if a = "high" then 1.0
  else if a = "medium" then 0.7
  else if a = "low" then 0.4
  else 0.5

/-- `compute_final_score`: weighted sum of the six signals, clamped above
at 1.0 (and only above). -/
noncomputable def compute_final_score (semantic_score skill_score
    experience_score year_score reputation_score availability_score : ℝ)
    (weights : Weights) : ℝ :=
  min 1.0 (weights.semantic * semantic_score +
    weights.skill * skill_score +
    weights.experience * experience_score +
    weights.year * year_score +
    weights.reputation * reputation_score +
    weights.availability * availability_score)

/-- Python `round(x, 4)` (see the header note on halfway cases). -/
noncomputable def round4 (x : ℝ) : ℝ := (round (x * 10000) : ℤ) / 10000

/-- The project-side JSON attributes the engine reads
(`required_skills`, `project_type`; a missing `required_skills` key and the
empty list behave identically, so the field is a plain list). -/
structure ProjJson where
  title : Option String
  required_skills : List String
  project_type : Option String

/-- The empty project JSON dict. -/
def ProjJson.empty : ProjJson := { title := none, required_skills := [], project_type := none }

/-- The candidate-side parsed JSON attributes the engine reads, flattened to
one structure of optional fields (`profile`, `skills`, `experience_level`,
`reputation_signals`). -/
structure UserJson where
  profile_name : Option String
  profile_year : Option String
  profile_availability : Option String
  skills : List (String × List String)
  experience_overall : Option String
  experience_by_domain : List (String × String)
  reputation_average_rating : Option ℝ
  reputation_completed_projects : Option ℕ

/-- The empty parsed JSON dict (every key missing). -/
def UserJson.empty : UserJson :=
  { profile_name := none, profile_year := none, profile_availability := none
    skills := [], experience_overall := none, experience_by_domain := []
    reputation_average_rating := none, reputation_completed_projects := none }

/-- A `Project` row as read by `matching_service`: its embedding (the empty
list standing for a missing/falsy embedding) and its `metadata` JSON. -/
structure Project where
  embedding : List ℝ
  metadata : Option ProjJson

/-- A `Resume` row with its related profile, as read by `matching_service`:
registration number, profile name (`None`/empty modelled as `none`),
embedding (empty list standing for missing/falsy) and `parsed_json`. -/
structure Resume where
  reg_num : String
  db_name : Option String
  embedding : List ℝ
  parsed : Option UserJson

/-- One entry of the ranked result list built by `matching_service`
(the engine's `MatchResult`): identifier, display name, and the rounded
final and per-signal scores. -/
structure MatchRecord where
  user_id : String
  name : String
  final_score : ℝ
  semantic_score : ℝ
  skill_score : ℝ
  experience_score : ℝ
  year_score : ℝ
  reputation_score : ℝ
  availability_score : ℝ

/-- Phase 2 of `match_users_for_project`: the per-candidate scoring block of
`pipelines/matching_service.py` (lines 70-114), producing one result record
from the project JSON, the gate similarity and the resume. -/
noncomputable def buildRecord (proj_json : ProjJson) (sem_score : ℝ)
    (resume : Resume) : MatchRecord :=
  let user_json := resume.parsed.getD UserJson.empty
  let required_skills := proj_json.required_skills
  let project_type := proj_json.project_type.getD "hackathon"
  let skill_score := score_skill_match required_skills user_json.skills
  let experience_score := score_experience_alignment project_type
    (user_json.experience_overall.getD "beginner") user_json.experience_by_domain
  let year_score := score_year_compatibility (user_json.profile_year.getD "") none
  let reputation_score := score_reputation
    (user_json.reputation_average_rating.getD 0)
    (user_json.reputation_completed_projects.getD 0)
  let availability_score := score_availability
    (user_json.profile_availability.getD "medium")
  let final_score := compute_final_score sem_score skill_score experience_score
    year_score reputation_score availability_score WEIGHTS
  { user_id := resume.reg_num
    name := resume.db_name.getD resume.reg_num
    final_score := round4 final_score
    semantic_score := round4 sem_score
    skill_score := round4 skill_score
    experience_score := round4 experience_score
    year_score := round4 year_score
    reputation_score := round4 reputation_score
    availability_score := round4 availability_score }

/-- The per-resume loop of `match_users_for_project`: skip resumes without an
embedding, gate the rest, score the passers in input order; an exception
raised by the gate aborts the whole run. -/
noncomputable def processResumes (proj_emb : List ℝ) (proj_json : ProjJson) :
    List Resume → Except String (List MatchRecord)
  | [] => .ok []
  | r :: rs =>
    if r.embedding = [] then processResumes proj_emb proj_json rs
    else
      match semantic_gate proj_emb r.embedding SEMANTIC_THRESHOLD with
      | .error e => .error e
      | .ok pg =>
        match processResumes proj_emb proj_json rs with
        | .error e => .error e
        | .ok rest =>
          if pg.1 then .ok (buildRecord proj_json pg.2 r :: rest) else .ok rest

/-- The ranker: `results.sort(key=lambda r: r["final_score"], reverse=True)`,
a stable sort descending by final score (Python `list.sort` is stable;
`mergeSort` keeps the left element first exactly when the comparison holds,
so equal scores retain input order). -/
noncomputable def rankMatches (results : List MatchRecord) : List MatchRecord :=
  results.mergeSort (fun a b => decide (b.final_score ≤ a.final_score))

/-- `pipelines/matching_service.match_users_for_project`: resolve the
project (a missing project or a missing/falsy embedding returns the empty
list), run the gate-and-score loop over all resumes, sort descending by
final score and keep the first `top_n`. -/
noncomputable def match_users_for_project (project : Option Project)
    (resumes : List Resume) (top_n : ℕ) : Except String (List MatchRecord) :=
  match project with
  | none => .ok []
  | some proj =>
    if proj.embedding = [] then .ok []
    else
      match processResumes proj.embedding (proj.metadata.getD ProjJson.empty) resumes with
      | .error e => .error e
      | .ok results => .ok ((rankMatches results).take top_n)

/-- One value of the `project_embeddings.json` dict: title and embedding. -/
structure ProjEntry where
  title : String
  embedding : List ℝ

/-- One value of the `user_embeddings.json` dict: embedding and optional
`resume_file` (the user id is substituted when absent). -/
structure UserEntry where
  embedding : List ℝ
  resume_file : Option String

/-- The external storage read by the batch/CLI surface: the two embedding
dicts (as association lists, preserving iteration order) and the per-id
JSON files (`none` standing for `FileNotFoundError`, which the loaders turn
into an empty dict). -/
structure CliData where
  project_embeddings : List (String × ProjEntry)
  user_embeddings : List (String × UserEntry)
  project_jsons : String → Option ProjJson
  resume_jsons : String → Option UserJson

/-- A candidate that passed phase 1 of the CLI engine: user id, resolved
resume file and gate similarity. -/
structure Phase1Pass where
  user_id : String
  resume_file : String
  semantic_score : ℝ

/-- The phase-1 loop of `match_users_to_project`: gate every user against the
project embedding at `SEMANTIC_THRESHOLD`, keeping the passers in iteration
order; a gate exception aborts the run. -/
noncomputable def phase1Gate (proj_emb : List ℝ) :
    List (String × UserEntry) → Except String (List Phase1Pass)
  | [] => .ok []
  | (uid, u) :: rest =>
    match semantic_gate proj_emb u.embedding SEMANTIC_THRESHOLD with
    | .error e => .error e
    | .ok pg =>
      match phase1Gate proj_emb rest with
      | .error e => .error e
      | .ok tail =>
        if pg.1 then
          .ok ({ user_id := uid, resume_file := u.resume_file.getD uid
                 semantic_score := pg.2 } :: tail)
        else .ok tail

/-- One entry of the CLI engine's ranked result list: identifiers and the
rounded scores (the presentational `profile` and `score_breakdown` display
fields of the source record carry no further information and are omitted). -/
structure CliMatchRecord where
  user_id : String
  resume_file : String
  final_score : ℝ
  semantic_score : ℝ
  skill_score : ℝ
  experience_score : ℝ
  year_score : ℝ
  reputation_score : ℝ
  availability_score : ℝ

/-- The phase-2 scoring block of `match_users_to_project` (lines 389-454),
for one phase-1 passer; the CLI surface defaults a missing profile year to
"2024" (the service defaults it to the empty string). -/
noncomputable def cliBuildRecord (proj_json : ProjJson) (data : CliData)
    (c : Phase1Pass) : CliMatchRecord :=
  let user_json := (data.resume_jsons c.resume_file).getD UserJson.empty
  let required_skills := proj_json.required_skills
  let project_type := proj_json.project_type.getD "hackathon"
  let skill_score := score_skill_match required_skills user_json.skills
  let experience_score := score_experience_alignment project_type
    (user_json.experience_overall.getD "beginner") user_json.experience_by_domain
  let year_score := score_year_compatibility (user_json.profile_year.getD "2024") none
  let reputation_score := score_reputation
    (user_json.reputation_average_rating.getD 0)
    (user_json.reputation_completed_projects.getD 0)
  let availability_score := score_availability
    (user_json.profile_availability.getD "medium")
  let final_score := compute_final_score c.semantic_score skill_score
    experience_score year_score reputation_score availability_score WEIGHTS
  { user_id := c.user_id
    resume_file := c.resume_file
    final_score := round4 final_score
    semantic_score := round4 c.semantic_score
    skill_score := round4 skill_score
    experience_score := round4 experience_score
    year_score := round4 year_score
    reputation_score := round4 reputation_score
    availability_score := round4 availability_score }

/-- The CLI ranker: `matches.sort(key=lambda x: x["final_score"],
reverse=True)`, the same stable descending sort as the service ranker. -/
noncomputable def rankCliMatches (ms : List CliMatchRecord) :
    List CliMatchRecord :=
  ms.mergeSort (fun a b => decide (b.final_score ≤ a.final_score))

/-- `external/match_users_to_projects.match_users_to_project`: an unknown
project id returns the empty list; otherwise gate all users, return the
empty list when nobody passes, else score the passers and sort descending
by final score. -/
noncomputable def match_users_to_project (project_id : String)
    (data : CliData) : Except String (List CliMatchRecord) :=
  match (data.project_embeddings.lookup project_id) with
  | none => .ok []
  | some proj =>
    let proj_json := (data.project_jsons project_id).getD ProjJson.empty
    match phase1Gate proj.embedding data.user_embeddings with
    | .error e => .error e
    | .ok passes =>
      if passes.isEmpty then .ok []
      else .ok (rankCliMatches (passes.map (cliBuildRecord proj_json data)))

/-- The `__main__` block of `external/match_users_to_projects.py`, as a
function from `sys.argv` and the external storage to the process exit code
and the computed matches: fewer than two arguments exits 1; otherwise the
engine runs and the script finishes with exit code 0 (display and JSON
export do not affect the exit code); an uncaught exception is the
`Except.error` case. -/
noncomputable def cliMain (argv : List String) (data : CliData) :
    Except String (ℕ × List CliMatchRecord) :=
  match argv with
  | _ :: project_id :: _ =>
    match match_users_to_project project_id data with
    | .error e => .error e
    | .ok ms => .ok (0, ms)
  | _ => .ok (1, [])

/-- Fixture: a project row with embedding `[1, 0]` and no metadata. -/
noncomputable def projUnit : Project := { embedding := [1, 0], metadata := none }

/-- Fixture: a resume whose embedding `[-7, 24]` has cosine similarity
`-7/25` with `projUnit` (negative, yet above the `-0.5` threshold) and no
parsed JSON. -/
noncomputable def resumeNeg : Resume :=
  { reg_num := "u1", db_name := none, embedding := [-7, 24], parsed := none }

/-- Fixture: a resume exactly aligned with `projUnit` and with an empty
parsed JSON, so every candidate attribute takes its pipeline default. -/
noncomputable def resumeAligned : Resume :=
  { reg_num := "u2", db_name := none, embedding := [1, 0], parsed := some UserJson.empty }

/-- Fixture: a resume antipodal to `projUnit` (cosine similarity `-1`,
below the `-0.5` threshold) with no parsed JSON. -/
noncomputable def resumeAnti : Resume :=
  { reg_num := "u3", db_name := none, embedding := [-1, 0], parsed := none }

/-- Fixture: CLI storage holding one project with embedding `[1]` and one
user with the antipodal embedding `[-1]` (cosine similarity `-1`, below the
`-0.5` threshold). -/
noncomputable def cliPoolAnti : CliData :=
  { project_embeddings := [("p1", { title := "T", embedding := [1] })]
    user_embeddings := [("u1", { embedding := [-1], resume_file := none })]
    project_jsons := fun _ => none
    resume_jsons := fun _ => none }

/-- Fixture: two match records sharing the same final score. -/
noncomputable def recTieA : MatchRecord :=
  { user_id := "a", name := "a", final_score := 0.5, semantic_score := 0.1
    skill_score := 1, experience_score := 1, year_score := 1
    reputation_score := 1, availability_score := 1 }

/-- Fixture: the second of the two tied match records. -/
noncomputable def recTieB : MatchRecord :=
  { user_id := "b", name := "b", final_score := 0.5, semantic_score := 0.2
    skill_score := 1, experience_score := 1, year_score := 1
    reputation_score := 1, availability_score := 1 }

/-- Rounding to four decimals fixes every value that is already an integer
multiple of `1/10000`. -/
theorem round4_int_div (n : ℤ) : round4 ((n : ℝ) / 10000) = (n : ℝ) / 10000 := by
  have h : ((n : ℝ) / 10000) * 10000 = (n : ℝ) := by norm_num
  rw [round4, h, round_intCast]

/-- Norm of the fixture vector `[1, 0]`. -/
theorem l2norm_unit : l2norm [(1 : ℝ), 0] = 1 := by
  simp [l2norm, dotList]

/-- Norm of the fixture vector `[-7, 24]`. -/
theorem l2norm_724 : l2norm [(-7 : ℝ), 24] = 25 := by
  have h : dotList [(-7 : ℝ), 24] [(-7 : ℝ), 24] = 625 := by
    simp [dotList]; norm_num
  rw [l2norm, h, show (625 : ℝ) = 25 ^ 2 by norm_num,
    Real.sqrt_sq (by norm_num : (0 : ℝ) ≤ 25)]

/-- Gate evaluation: identical unit vectors pass with similarity 1. -/
theorem gate_unit_unit :
    semantic_gate [1, 0] [1, 0] SEMANTIC_THRESHOLD = .ok (true, 1) := by
  rw [semantic_gate, compute_semantic_similarity]
  norm_num [cosineSimVal, safeNorm, l2norm_unit, dotList, SEMANTIC_THRESHOLD]

/-- Gate evaluation: `[1, 0]` against `[-7, 24]` passes the default
threshold with the negative similarity `-7/25`. -/
theorem gate_unit_neg :
    semantic_gate [1, 0] [-7, 24] SEMANTIC_THRESHOLD = .ok (true, -7 / 25) := by
  rw [semantic_gate, compute_semantic_similarity]
  norm_num [cosineSimVal, safeNorm, l2norm_unit, l2norm_724, dotList, SEMANTIC_THRESHOLD]

/-- Gate evaluation: antipodal one-dimensional vectors fail the default
threshold with similarity `-1`. -/
theorem gate_antipodal :
    semantic_gate [1] [-1] SEMANTIC_THRESHOLD = .ok (false, -1) := by
  have h1 : l2norm [(1 : ℝ)] = 1 := by simp [l2norm, dotList]
  have h2 : l2norm [(-1 : ℝ)] = 1 := by simp [l2norm, dotList]
  rw [semantic_gate, compute_semantic_similarity]
  norm_num [cosineSimVal, safeNorm, h1, h2, dotList, SEMANTIC_THRESHOLD]

/-- Gate evaluation: `[1, 0]` against `[-1, 0]` fails the default
threshold with similarity `-1`. -/
theorem gate_unit_anti :
    semantic_gate [1, 0] [-1, 0] SEMANTIC_THRESHOLD = .ok (false, -1) := by
  have h : l2norm [(-1 : ℝ), 0] = 1 := by simp [l2norm, dotList]
  rw [semantic_gate, compute_semantic_similarity]
  norm_num [cosineSimVal, safeNorm, l2norm_unit, h, dotList, SEMANTIC_THRESHOLD]

/-- A vector of zeros has dot product 0 with any vector. -/
theorem dotList_zero_left : ∀ (a b : List ℝ), (∀ x ∈ a, x = 0) → dotList a b = 0
  | [], _, _ => by simp [dotList]
  | _ :: _, [], _ => by simp [dotList]
  | x :: xs, y :: ys, h => by
    have hx : x = 0 := h x (by simp)
    have hrest := dotList_zero_left xs ys (fun z hz => h z (by simp [hz]))
    simp [dotList, hx, hrest]

/-- Any vector has dot product 0 with a vector of zeros. -/
theorem dotList_zero_right : ∀ (a b : List ℝ), (∀ x ∈ b, x = 0) → dotList a b = 0
  | [], _, _ => by simp [dotList]
  | _ :: _, [], _ => by simp [dotList]
  | x :: xs, y :: ys, h => by
    have hy : y = 0 := h y (by simp)
    have hrest := dotList_zero_right xs ys (fun z hz => h z (by simp [hz]))
    simp [dotList, hy, hrest]

/-- The service ranker leaves the empty list unchanged. -/
theorem rankMatches_nil : rankMatches [] = [] :=
  List.perm_nil.mp (List.mergeSort_perm [] _)

/-- The service ranker leaves a one-element list unchanged. -/
theorem rankMatches_single (r : MatchRecord) : rankMatches [r] = [r] :=
  List.perm_singleton.mp (List.mergeSort_perm [r] _)

/-- The CLI ranker leaves a one-element list unchanged. -/
theorem rankCliMatches_single (r : CliMatchRecord) : rankCliMatches [r] = [r] :=
  List.perm_singleton.mp (List.mergeSort_perm [r] _)

/-- The descending-by-score Boolean comparison is transitive. -/
theorem decideGe_trans {α : Type} (f : α → ℝ) : ∀ a b c : α,
    decide (f b ≤ f a) = true → decide (f c ≤ f b) = true →
    decide (f c ≤ f a) = true := by
  intro a b c hab hbc
  exact decide_eq_true (le_trans (of_decide_eq_true hbc) (of_decide_eq_true hab))

/-- The descending-by-score Boolean comparison is total. -/
theorem decideGe_total {α : Type} (f : α → ℝ) : ∀ a b : α,
    (decide (f b ≤ f a) || decide (f a ≤ f b)) = true := by
  intro a b
  rcases le_total (f b) (f a) with h | h
  · simp [decide_eq_true h]
  · simp [decide_eq_true h]

/-- C7: for every pair of non-empty embedding vectors of different
dimensions, computing their semantic similarity raises immediately (the
sklearn dimension-mismatch `ValueError`): no similarity value is produced,
so no ranking can proceed for that pair. -/
theorem C7_dim_mismatch_raises (a b : List ℝ) (ha : a ≠ []) (hb : b ≠ [])
    (hab : a.length ≠ b.length) :
    compute_semantic_similarity a b =
      .error "Incompatible dimension for X and Y matrices" := by
  rw [compute_semantic_similarity, if_pos hab]

/-- Witness for C7 at the concrete pair `[1]` and `[1, 2]`. -/
theorem C7_dim_mismatch_raises_witness :
    compute_semantic_similarity [1] [1, 2] =
      .error "Incompatible dimension for X and Y matrices" :=
  C7_dim_mismatch_raises [1] [1, 2] (by simp) (by simp) (by simp)

/-- C8: the composite scorer is monotone in every signal: raising any of
the six signal scores (the others not decreasing) never decreases the final
score computed with the configured `WEIGHTS`. -/
theorem C8_final_score_monotone (s1 s2 s3 s4 s5 s6 t1 t2 t3 t4 t5 t6 : ℝ)
    (h1 : s1 ≤ t1) (h2 : s2 ≤ t2) (h3 : s3 ≤ t3)
    (h4 : s4 ≤ t4) (h5 : s5 ≤ t5) (h6 : s6 ≤ t6) :
    compute_final_score s1 s2 s3 s4 s5 s6 WEIGHTS ≤
      compute_final_score t1 t2 t3 t4 t5 t6 WEIGHTS := by
  unfold compute_final_score WEIGHTS
  refine min_le_min le_rfl ?_
  norm_num
  nlinarith

/-- Witness for C8: raising every signal from 0 to 1. -/
theorem C8_final_score_monotone_witness :
    compute_final_score 0 0 0 0 0 0 WEIGHTS ≤
      compute_final_score 1 1 1 1 1 1 WEIGHTS :=
  C8_final_score_monotone 0 0 0 0 0 0 1 1 1 1 1 1 (by norm_num) (by norm_num)
    (by norm_num) (by norm_num) (by norm_num) (by norm_num)

/-- C4 counterexample: at `average_rating = 0` (inside the claimed domain
[0, 5]) and `completed_projects = 1`, the code returns
`min(1, 1.0 * 1/5) = 1/5`, while the claimed formula
`(average_rating / 5) * min(1, completed_projects / 5)` gives 0. -/
theorem C4_reputation_cex :
    score_reputation 0 1 = 1 / 5 ∧
    ((0 : ℝ) / 5) * min 1 ((1 : ℝ) / 5) ≠ 1 / 5 := by
  constructor
  · rw [score_reputation]
    norm_num
  · norm_num

/-- Helper: clamping an already clamped value changes nothing. -/
theorem min_one_min_one (x : ℝ) : min 1 (min 1 x) = min 1 x := by
  rcases le_total 1 x with h | h
  · rw [min_eq_left h, min_self]
  · rw [min_eq_right h, min_eq_right h]

/-- C4 as amended: `completed_projects = 0` gives 1.0 unconditionally; for a
positive number of completed projects the claimed formula
`(average_rating / 5) * min(1, completed_projects / 5)` holds only for
`0 < average_rating ≤ 5`, while a non-positive `average_rating` makes the
normalised rating default to 1.0, giving `min(1, completed_projects / 5)`. -/
theorem C4_reputation_amended (average_rating : ℝ) (completed_projects : ℕ) :
    (completed_projects = 0 → score_reputation average_rating completed_projects = 1) ∧
    (completed_projects ≠ 0 → 0 < average_rating → average_rating ≤ 5 →
      score_reputation average_rating completed_projects =
        average_rating / 5 * min 1 ((completed_projects : ℝ) / 5)) ∧
    (completed_projects ≠ 0 → average_rating ≤ 0 →
      score_reputation average_rating completed_projects =
        min 1 ((completed_projects : ℝ) / 5)) := by
  refine ⟨fun h0 => by rw [score_reputation, if_pos h0]; norm_num,
    fun hne hpos hle => ?_, fun hne hnonpos => ?_⟩
  · rw [score_reputation, if_neg hne]
    simp only [if_pos hpos]
    have hconf0 : (0 : ℝ) ≤ min 1 ((completed_projects : ℝ) / 5) := by positivity
    have hconf1 : min 1 ((completed_projects : ℝ) / 5) ≤ 1 := min_le_left _ _
    have hr1 : average_rating / 5 ≤ 1 := by linarith
    have hr0 : (0 : ℝ) ≤ average_rating / 5 := by positivity
    have hprod : average_rating / 5 * min 1 ((completed_projects : ℝ) / 5) ≤ 1 := by
      nlinarith
    norm_num
    exact hprod
  · rw [score_reputation, if_neg hne]
    have hng : ¬ (average_rating > 0) := by linarith
    simp only [if_neg hng]
    norm_num

/-- Witness for C4 at `average_rating = 4`, `completed_projects = 2`. -/
theorem C4_reputation_amended_witness :
    score_reputation 4 2 = 4 / 5 * min 1 ((2 : ℝ) / 5) :=
  (C4_reputation_amended 4 2).2.1 (by norm_num) (by norm_num) (by norm_num)

/-- C10: a candidate whose overall experience level is not one of the three
known levels, or is missing (in which case the callers pass the default
"beginner"), is scored at ordinal 1; whenever the level preferred for the
project type is intermediate or advanced (ordinal at least 2), such a
candidate scores the below-preferred penalty 0.3. -/
theorem C10_unknown_experience_penalty (project_type overall : String)
    (dmap : List (String × String))
    (hunknown : EXPERIENCE_LEVELS overall = none)
    (hpref : 2 ≤ (EXPERIENCE_LEVELS
      ((PROJECT_TYPE_EXPERIENCE project_type).getD "intermediate")).getD 2) :
    score_experience_alignment project_type overall dmap = 0.3 ∧
    score_experience_alignment project_type
      ((none : Option String).getD "beginner") dmap = 0.3 := by
  constructor
  · rw [score_experience_alignment]
    simp only [hunknown, Option.getD_none]
    rw [if_neg (by omega), if_pos (by omega)]
  · rw [score_experience_alignment]
    have hbeg : EXPERIENCE_LEVELS ((none : Option String).getD "beginner") = some 1 := by decide
    simp only [hbeg, Option.getD_some]
    rw [if_neg (by omega), if_pos (by omega)]

/-- Witness for C10 at the unrecognised level "expert" on a research
project (preferred level advanced, ordinal 3). -/
theorem C10_unknown_experience_penalty_witness :
    score_experience_alignment "research" "expert" [] = 0.3 ∧
    score_experience_alignment "research"
      ((none : Option String).getD "beginner") [] = 0.3 :=
  C10_unknown_experience_penalty "research" "expert" [] (by decide) (by decide)

/-- C3 counterexample: at the zero project vector `[0, 0]` against `[3, 4]`,
the gate computes similarity 0 without raising, but at the default
threshold `-0.5` the candidate passes the gate (`0 ≥ -0.5`), not fails it
as claimed. -/
theorem C3_zero_vector_cex :
    semantic_gate [0, 0] [3, 4] SEMANTIC_THRESHOLD = .ok (true, 0) := by
  rw [semantic_gate, compute_semantic_similarity]
  norm_num [cosineSimVal, dotList, SEMANTIC_THRESHOLD]

/-- C3 as amended: for every same-dimension, non-empty pair of embedding
vectors with a zero vector on either side, the similarity computes to 0
without an exception, and at the default threshold the candidate passes the
gate (since `0 ≥ -0.5`), rather than failing it. -/
theorem C3_zero_vector_amended (a b : List ℝ) (hlen : a.length = b.length)
    (hne : a ≠ []) (hzero : (∀ x ∈ a, x = 0) ∨ (∀ x ∈ b, x = 0)) :
    compute_semantic_similarity a b = .ok 0 ∧
    semantic_gate a b SEMANTIC_THRESHOLD = .ok (true, 0) := by
  have hdot : dotList a b = 0 := by
    rcases hzero with h | h
    · exact dotList_zero_left a b h
    · exact dotList_zero_right a b h
  have hsim : compute_semantic_similarity a b = .ok 0 := by
    rw [compute_semantic_similarity, if_neg (by omega),
      if_neg (fun h => hne (List.length_eq_zero.mp h))]
    rw [cosineSimVal, hdot, zero_div]
  refine ⟨hsim, ?_⟩
  rw [semantic_gate, hsim]
  norm_num [SEMANTIC_THRESHOLD]

/-- Witness for C3 as amended, at the zero vector `[0, 0]` against `[3, 4]`. -/
theorem C3_zero_vector_amended_witness :
    compute_semantic_similarity [0, 0] [3, 4] = .ok 0 ∧
    semantic_gate [0, 0] [3, 4] SEMANTIC_THRESHOLD = .ok (true, 0) :=
  C3_zero_vector_amended [0, 0] [3, 4] rfl (by simp)
    (Or.inl (by intro x hx; simp at hx; exact hx))

/-- C5 as amended: the availability scorer maps (case-insensitively)
high to 1.0, medium to 0.7, low to 0.4 and every unrecognised string to
0.5; but an absent availability value does not reach the scorer as an
unrecognised string: the callers substitute the default "medium", so a
missing value scores 0.7, not 0.5. -/
theorem C5_availability_amended (s : String) :
    (pyLower s = "high" → score_availability s = 1) ∧
    (pyLower s = "medium" → score_availability s = 0.7) ∧
    (pyLower s = "low" → score_availability s = 0.4) ∧
    (pyLower s ≠ "high" → pyLower s ≠ "medium" → pyLower s ≠ "low" →
      score_availability s = 0.5) ∧
    score_availability ((none : Option String).getD "medium") = 0.7 := by
  refine ⟨fun h => ?_, fun h => ?_, fun h => ?_, fun h1 h2 h3 => ?_, ?_⟩
  · rw [score_availability]; simp only [h]; norm_num
  · rw [score_availability]; simp only [h]; simp
  · rw [score_availability]; simp only [h]; simp
  · rw [score_availability]
    simp only [if_neg h1, if_neg h2, if_neg h3]
  · have h : pyLower ((none : Option String).getD "medium") = "medium" := by decide
    rw [score_availability]; simp only [h]; simp

/-- Witness for C5 as amended, at the mixed-case value "HIGH". -/
theorem C5_availability_amended_witness : score_availability "HIGH" = 1 :=
  (C5_availability_amended "HIGH").1 (by decide)

/-- Helper: a clamp `min 1 x` of a non-negative quantity lies in [0, 1]. -/
theorem min_one_bounds (x : ℝ) (hx : 0 ≤ x) : 0 ≤ min 1.0 x ∧ min 1.0 x ≤ 1 :=
  ⟨le_min (by norm_num) hx, le_trans (min_le_left _ _) (by norm_num)⟩

/-- C2 as amended: the five structured signal scorers always produce values
in [0, 1]; the semantic score handed to the composite scorer is the raw
cosine similarity, which may be negative (any value at or above the default
threshold `-0.5` passes the gate); consequently the final score is clamped
above at 1 but is not bounded below by 0: for a semantic score in
`[-1, 1]` and the other five signals in [0, 1] it lies in `[-1/5, 1]`. -/
theorem C2_score_ranges (required_skills : List String)
    (user_skills : List (String × List String)) (ptype overall : String)
    (dmap : List (String × String)) (ystr : String) (py : Option ℤ)
    (rating : ℝ) (cp : ℕ) (avail : String) (sem s1 s2 s3 s4 s5 : ℝ)
    (hsl : -1 ≤ sem) (hsu : sem ≤ 1)
    (h1l : 0 ≤ s1) (h1u : s1 ≤ 1) (h2l : 0 ≤ s2) (h2u : s2 ≤ 1)
    (h3l : 0 ≤ s3) (h3u : s3 ≤ 1) (h4l : 0 ≤ s4) (h4u : s4 ≤ 1)
    (h5l : 0 ≤ s5) (h5u : s5 ≤ 1) :
    (0 ≤ score_skill_match required_skills user_skills ∧
      score_skill_match required_skills user_skills ≤ 1) ∧
    (0 ≤ score_experience_alignment ptype overall dmap ∧
      score_experience_alignment ptype overall dmap ≤ 1) ∧
    (0 ≤ score_year_compatibility ystr py ∧
      score_year_compatibility ystr py ≤ 1) ∧
    (0 ≤ score_reputation rating cp ∧ score_reputation rating cp ≤ 1) ∧
    (0 ≤ score_availability avail ∧ score_availability avail ≤ 1) ∧
    (-(1 / 5) ≤ compute_final_score sem s1 s2 s3 s4 s5 WEIGHTS ∧
      compute_final_score sem s1 s2 s3 s4 s5 WEIGHTS ≤ 1) := by
  refine ⟨?_, ?_, ?_, ?_, ?_, ?_⟩
  · simp only [score_skill_match]
    split
    · norm_num
    · exact min_one_bounds _ (by positivity)
  · simp only [score_experience_alignment]
    split
    · norm_num
    · split <;> norm_num
  · rcases py with _ | p
    · simp only [score_year_compatibility]
      norm_num
    · rcases h : ystr.toInt? with _ | u
      · simp only [score_year_compatibility, h]
        norm_num
      · simp only [score_year_compatibility, h]
        exact min_one_bounds _ (le_trans (by norm_num) (le_max_left _ _))
  · simp only [score_reputation]
    split
    · norm_num
    · refine min_one_bounds _ ?_
      have hc : (0 : ℝ) ≤ min 1.0 ((cp : ℝ) / 5.0) := by positivity
      split
      · rename_i hpos
        exact mul_nonneg (div_nonneg (le_of_lt hpos) (by norm_num)) hc
      · linarith
  · simp only [score_availability]
    split
    · norm_num
    · split
      · norm_num
      · split <;> norm_num
  · rw [compute_final_score, WEIGHTS]
    have hsum : -(1 / 5 : ℝ) ≤ (0.20 : ℝ) * sem + 0.30 * s1 + 0.20 * s2 +
        0.12 * s3 + 0.10 * s4 + 0.08 * s5 := by nlinarith
    exact ⟨le_min (by norm_num) hsum, le_trans (min_le_left _ _) (by norm_num)⟩

/-- Witness for C2 as amended, at empty skill data, default categories and
semantic score 0 with unit companions. -/
theorem C2_score_ranges_witness :
    (0 ≤ score_skill_match [] [] ∧ score_skill_match [] [] ≤ 1) ∧
    (0 ≤ score_experience_alignment "hackathon" "beginner" [] ∧
      score_experience_alignment "hackathon" "beginner" [] ≤ 1) ∧
    (0 ≤ score_year_compatibility "" none ∧
      score_year_compatibility "" none ≤ 1) ∧
    (0 ≤ score_reputation 0 0 ∧ score_reputation 0 0 ≤ 1) ∧
    (0 ≤ score_availability "high" ∧ score_availability "high" ≤ 1) ∧
    (-(1 / 5) ≤ compute_final_score 0 1 1 1 1 1 WEIGHTS ∧
      compute_final_score 0 1 1 1 1 1 WEIGHTS ≤ 1) :=
  C2_score_ranges [] [] "hackathon" "beginner" [] "" none 0 0 "high" 0 1 1 1 1 1
    (by norm_num) (by norm_num) (by norm_num) (by norm_num) (by norm_num)
    (by norm_num) (by norm_num) (by norm_num) (by norm_num) (by norm_num)
    (by norm_num) (by norm_num)

/-- Helper: a single resume with an embedding that passes the gate with
similarity `s` is scored into exactly one record. -/
theorem processResumes_single_pass (pe : List ℝ) (pj : ProjJson) (r : Resume)
    (s : ℝ) (hne : ¬ (r.embedding = []))
    (hg : semantic_gate pe r.embedding SEMANTIC_THRESHOLD = .ok (true, s)) :
    processResumes pe pj [r] = .ok [buildRecord pj s r] := by
  rw [processResumes, if_neg hne, hg]
  simp [processResumes]

/-- Helper: the service pipeline on one project and one passing resume. -/
theorem service_single_pass (p : Project) (r : Resume) (s : ℝ) (n : ℕ)
    (hp : ¬ (p.embedding = [])) (hr : ¬ (r.embedding = []))
    (hn : n ≠ 0)
    (hg : semantic_gate p.embedding r.embedding SEMANTIC_THRESHOLD = .ok (true, s)) :
    match_users_for_project (some p) [r] n =
      .ok [buildRecord (p.metadata.getD ProjJson.empty) s r] := by
  rw [match_users_for_project]
  rw [if_neg hp, processResumes_single_pass _ _ _ _ hr hg]
  cases n with
  | zero => exact absurd rfl hn
  | succ m => simp [rankMatches_single]

/-- Helper: `round4` at `-7/25`. -/
theorem round4_neg_seven : round4 (-7 / 25 : ℝ) = -7 / 25 := by
  rw [show (-7 / 25 : ℝ) = ((-2800 : ℤ) : ℝ) / 10000 by norm_num, round4_int_div]

/-- Helper: `round4` at `7/10`. -/
theorem round4_seven_tenths : round4 (7 / 10 : ℝ) = 7 / 10 := by
  rw [show (7 / 10 : ℝ) = ((7000 : ℤ) : ℝ) / 10000 by norm_num, round4_int_div]

/-- C2 counterexample: a candidate pair passing the default gate with the
negative cosine similarity `-7/25` produces a MatchResult whose emitted
`semantic_score` is `-7/25`, outside [0, 1]. -/
theorem C2_negative_semantic_cex :
    (match_users_for_project (some projUnit) [resumeNeg] 5).map
      (fun rs => rs.map MatchRecord.semantic_score) = .ok [-7 / 25] ∧
    ¬ (0 ≤ (-7 / 25 : ℝ)) := by
  constructor
  · rw [service_single_pass projUnit resumeNeg (-7 / 25) 5 (by simp [projUnit])
      (by simp [resumeNeg]) (by norm_num)
      (by simp only [projUnit, resumeNeg]; exact gate_unit_neg)]
    simp [Except.map, buildRecord, round4_neg_seven]
  · norm_num

/-- C5 counterexample: a resume whose parsed JSON has no availability value
is scored through the pipeline default "medium" and receives availability
score 0.7, not the claimed 0.5. -/
theorem C5_missing_availability_cex :
    (match_users_for_project (some projUnit) [resumeAligned] 5).map
      (fun rs => rs.map MatchRecord.availability_score) = .ok [7 / 10] ∧
    (7 / 10 : ℝ) ≠ 1 / 2 := by
  have havail : score_availability
      ((UserJson.empty.profile_availability).getD "medium") = 7 / 10 := by
    have h : pyLower ((UserJson.empty.profile_availability).getD "medium") = "medium" := by
      decide
    rw [score_availability]
    simp only [h]
    simp
    norm_num
  constructor
  · rw [service_single_pass projUnit resumeAligned 1 5 (by simp [projUnit])
      (by simp [resumeAligned]) (by norm_num)
      (by simp only [projUnit, resumeAligned]; exact gate_unit_unit)]
    simp only [Except.map, buildRecord, resumeAligned, Option.getD_some,
      List.map_cons, List.map_nil]
    rw [havail, round4_seven_tenths]
  · norm_num

/-- Helper: when every user fails the gate, phase 1 selects nobody. -/
theorem phase1Gate_all_fail (pe : List ℝ) :
    ∀ users : List (String × UserEntry),
    (∀ e ∈ users, ∃ s,
      semantic_gate pe e.2.embedding SEMANTIC_THRESHOLD = .ok (false, s)) →
    phase1Gate pe users = .ok []
  | [], _ => by simp [phase1Gate]
  | (uid, u) :: rest, h => by
    obtain ⟨s, hs⟩ := h (uid, u) (by simp)
    have hrest := phase1Gate_all_fail pe rest (fun e he => h e (by simp [he]))
    simp only [phase1Gate, hs, hrest]
    simp

/-- C1 counterexample: a non-empty candidate pool with a usable embedding in
which no candidate reaches the (fixed) threshold makes the engine return
the empty list: there is no top-K fallback and no flag. -/
theorem C1_no_fallback_cex :
    cliPoolAnti.user_embeddings ≠ [] ∧
    match_users_to_project "p1" cliPoolAnti = .ok [] := by
  constructor
  · simp [cliPoolAnti]
  · simp [match_users_to_project, cliPoolAnti, List.lookup, phase1Gate,
      gate_antipodal]

/-- Helper: when every resume that has an embedding fails the gate, the
service scoring loop produces no records. -/
theorem processResumes_all_fail (pe : List ℝ) (pj : ProjJson) :
    ∀ resumes : List Resume,
    (∀ r ∈ resumes, ¬ (r.embedding = []) → ∃ s,
      semantic_gate pe r.embedding SEMANTIC_THRESHOLD = .ok (false, s)) →
    processResumes pe pj resumes = .ok []
  | [], _ => by simp [processResumes]
  | r :: rs, h => by
    have hrest := processResumes_all_fail pe pj rs
      (fun x hx hne => h x (by simp [hx]) hne)
    by_cases hemb : r.embedding = []
    · rw [processResumes, if_pos hemb]
      exact hrest
    · obtain ⟨s, hs⟩ := h r (by simp) hemb
      rw [processResumes, if_neg hemb, hs, hrest]
      simp

/-- C1 as amended: in both cited engine surfaces, when the project resolves
but every candidate (with a usable embedding) fails the semantic gate, the
matching run returns the empty list; no fallback ranking by raw similarity
is attempted and nothing is flagged (a top-K fallback exists only in the
separate two-layer HTTP view, which is not one of these surfaces). -/
theorem C1_all_fail_empty_amended (project_id : String) (data : CliData)
    (pe : ProjEntry) (p : Project) (resumes : List Resume) (n : ℕ)
    (hfound : data.project_embeddings.lookup project_id = some pe)
    (hfail : ∀ e ∈ data.user_embeddings, ∃ s,
      semantic_gate pe.embedding e.2.embedding SEMANTIC_THRESHOLD = .ok (false, s))
    (hp : ¬ (p.embedding = []))
    (hfailsvc : ∀ r ∈ resumes, ¬ (r.embedding = []) → ∃ s,
      semantic_gate p.embedding r.embedding SEMANTIC_THRESHOLD = .ok (false, s)) :
    match_users_to_project project_id data = .ok [] ∧
    match_users_for_project (some p) resumes n = .ok [] := by
  constructor
  · rw [match_users_to_project, hfound]
    simp only [phase1Gate_all_fail pe.embedding data.user_embeddings hfail]
    simp
  · rw [match_users_for_project, if_neg hp,
      processResumes_all_fail p.embedding (p.metadata.getD ProjJson.empty)
        resumes hfailsvc]
    simp [rankMatches_nil]

/-- Witness for C1 as amended, at the one-project, one-antipodal-user CLI
pool and at the service run of `projUnit` against the antipodal resume. -/
theorem C1_all_fail_empty_amended_witness :
    match_users_to_project "p1" cliPoolAnti = .ok [] ∧
    match_users_for_project (some projUnit) [resumeAnti] 5 = .ok [] :=
  C1_all_fail_empty_amended "p1" cliPoolAnti
    { title := "T", embedding := [1] } projUnit [resumeAnti] 5
    (by simp [cliPoolAnti, List.lookup])
    (by
      intro e he
      simp only [cliPoolAnti, List.mem_singleton] at he
      subst he
      exact ⟨-1, gate_antipodal⟩)
    (by simp [projUnit])
    (by
      intro r hr hne
      simp only [List.mem_singleton] at hr
      subst hr
      exact ⟨-1, gate_unit_anti⟩)

/-- C6 counterexample: with an unresolvable project id the CLI run finishes
with exit code 0 (not non-zero) and an empty match list, and the service
returns a plain empty success (no error classification), exactly as for an
empty candidate pool. -/
theorem C6_exit_code_cex :
    cliMain ["match_users_to_projects.py", "missing"] cliPoolAnti = .ok (0, []) ∧
    match_users_for_project none [resumeAligned] 5 = .ok [] := by
  constructor
  · simp [cliMain, match_users_to_project, cliPoolAnti, List.lookup]
  · rw [match_users_for_project]

/-- C6 as amended: a missing project or a missing project embedding makes
the service return an empty-list success and the CLI finish with exit code
0 and no matches, indistinguishable from the (also successful) empty
candidate pool; the only non-zero CLI exit is for a missing project-id
argument. -/
theorem C6_error_surfaces_amended :
    (∀ (resumes : List Resume) (n : ℕ),
      match_users_for_project none resumes n = .ok []) ∧
    (∀ (meta : Option ProjJson) (resumes : List Resume) (n : ℕ),
      match_users_for_project (some { embedding := [], metadata := meta })
        resumes n = .ok []) ∧
    (∀ (a pid : String) (rest : List String) (data : CliData),
      data.project_embeddings.lookup pid = none →
      cliMain (a :: pid :: rest) data = .ok (0, [])) ∧
    (∀ (arg : String) (data : CliData), cliMain [arg] data = .ok (1, [])) ∧
    (∀ (p : Project) (n : ℕ), ¬ (p.embedding = []) →
      match_users_for_project (some p) [] n = .ok []) := by
  refine ⟨fun resumes n => by rw [match_users_for_project],
    fun meta resumes n => by simp [match_users_for_project],
    fun a pid rest data h => ?_, fun arg data => by simp [cliMain],
    fun p n hp => ?_⟩
  · simp only [cliMain]
    rw [match_users_to_project, h]
  · rw [match_users_for_project, if_neg hp]
    simp [processResumes, rankMatches_nil]

/-- Witness for C6 as amended, at concrete missing-project, missing-
embedding, missing-argument and empty-pool inputs. -/
theorem C6_error_surfaces_amended_witness :
    match_users_for_project none [resumeAligned] 3 = .ok [] ∧
    match_users_for_project (some { embedding := [], metadata := none })
      [resumeAligned] 3 = .ok [] ∧
    cliMain ["prog", "nope"] cliPoolAnti = .ok (0, []) ∧
    cliMain ["prog"] cliPoolAnti = .ok (1, []) ∧
    match_users_for_project (some projUnit) [] 3 = .ok [] :=
  ⟨C6_error_surfaces_amended.1 [resumeAligned] 3,
   C6_error_surfaces_amended.2.1 none [resumeAligned] 3,
   C6_error_surfaces_amended.2.2.1 "prog" "nope" [] cliPoolAnti
     (by simp [cliPoolAnti, List.lookup]),
   C6_error_surfaces_amended.2.2.2.1 "prog" cliPoolAnti,
   C6_error_surfaces_amended.2.2.2.2 projUnit 3 (by simp [projUnit])⟩

/-- C9: both rankers sort the scored candidates into non-increasing final
score order, and any two candidates with equal final score retain their
relative input order (stability). -/
theorem C9_ranker_stable_sorted (l : List MatchRecord)
    (lc : List CliMatchRecord) :
    ((rankMatches l).Pairwise (fun a b => b.final_score ≤ a.final_score) ∧
     (∀ a b : MatchRecord, [a, b].Sublist l → a.final_score = b.final_score →
        [a, b].Sublist (rankMatches l))) ∧
    ((rankCliMatches lc).Pairwise (fun a b => b.final_score ≤ a.final_score) ∧
     (∀ a b : CliMatchRecord, [a, b].Sublist lc →
        a.final_score = b.final_score →
        [a, b].Sublist (rankCliMatches lc))) := by
  refine ⟨⟨?_, ?_⟩, ⟨?_, ?_⟩⟩
  · have h := @List.sorted_mergeSort MatchRecord
      (fun a b => decide (b.final_score ≤ a.final_score))
      (decideGe_trans MatchRecord.final_score)
      (decideGe_total MatchRecord.final_score) l
    exact h.imp (fun hab => of_decide_eq_true hab)
  · intro a b hsub heq
    exact List.mergeSort_stable_pair
      (decideGe_trans MatchRecord.final_score)
      (decideGe_total MatchRecord.final_score)
      (decide_eq_true (le_of_eq heq.symm)) hsub
  · have h := @List.sorted_mergeSort CliMatchRecord
      (fun a b => decide (b.final_score ≤ a.final_score))
      (decideGe_trans CliMatchRecord.final_score)
      (decideGe_total CliMatchRecord.final_score) lc
    exact h.imp (fun hab => of_decide_eq_true hab)
  · intro a b hsub heq
    exact List.mergeSort_stable_pair
      (decideGe_trans CliMatchRecord.final_score)
      (decideGe_total CliMatchRecord.final_score)
      (decide_eq_true (le_of_eq heq.symm)) hsub

/-- Witness for C9: two tied records keep their input order, and the sorted
conclusion holds at the same concrete inputs. -/
theorem C9_ranker_stable_sorted_witness :
    [recTieA, recTieB].Sublist (rankMatches [recTieA, recTieB]) ∧
    (rankCliMatches []).Pairwise
      (fun a b : CliMatchRecord => b.final_score ≤ a.final_score) :=
  ⟨(C9_ranker_stable_sorted [recTieA, recTieB] []).1.2 recTieA recTieB
      (List.Sublist.refl _) rfl,
   (C9_ranker_stable_sorted [recTieA, recTieB] []).2.1⟩
